import Mathlib

/-!
A shallow embedding of `nobrainer/predict.py` and a verification of the
module's specified behaviour.

The module dispatches volumetric (3-D) data to a trained inference model:
it normalizes the input into an array, partitions the array into blocks,
feeds mini-batches of blocks to the model-serving callable, and reassembles
the outputs into a full volume.

Modelling conventions:
* voxel values are rationals (`ℚ`); a `Volume` is a 3-D shape together with
  the flattened voxel data;
* fallible Python code is embedded as `Except PyError _`, with one error
  constructor per Python exception class the module can surface;
* the external collaborators that live outside this module
  (`to_blocks` / `from_blocks`, `normalize_zero_one`, the saved-model
  loader, image I/O) are modelled from the specification, as noted on each
  definition; the third-party library calls the module makes (numpy's
  `astype`, the TF 1.x Keras progress-bar update, pathlib) are modelled
  from those libraries' behaviour, including the errors the progress bar
  raises on a non-positive target;
* the inference interface is a function from a batch of blocks to a batch
  of predicted blocks; a trained model applies per example, which is
  captured by `batchPredictor`.
-/

namespace Nobrainer

/-- A block of voxel data (one sub-volume), flattened to a list of voxel
values.  The trailing singleton channel axis that the code appends with
`features[..., None]` does not change the flattened data and is noted where
it occurs. -/
abbrev Block := List ℚ

/-- A 3-D volume: spatial shape plus flattened voxel data. -/
structure Volume where
  shape : ℕ × ℕ × ℕ
  data : List ℚ
deriving DecidableEq

/-- Number of voxels described by a 3-D shape. -/
def volSize (s : ℕ × ℕ × ℕ) : ℕ := s.1 * s.2.1 * s.2.2

/-- Python exception values that the module can surface. -/
inductive PyError where
  | valueError (msg : String)
  | typeError (msg : String)
  | fileNotFoundError (msg : String)
  | unboundLocalError (varName : String)
  | zeroDivisionError (msg : String)
  | overflowError (msg : String)
deriving DecidableEq

/-- A nibabel `SpatialImage`: a data volume plus spatial metadata (affine
transform, header, extra fields), carried through unchanged from input to
output. -/
structure SpatialImage where
  dataobj : Volume
  affine : List (List ℚ)
  header : String
  extra : String
deriving DecidableEq

instance {ε α : Type} [DecidableEq ε] [DecidableEq α] : DecidableEq (Except ε α) := fun x y =>
  match x, y with
  | .error a, .error b =>
      if h : a = b then .isTrue (by rw [h]) else .isFalse (by simp [h])
  | .ok a, .ok b =>
      if h : a = b then .isTrue (by rw [h]) else .isFalse (by simp [h])
  | .error _, .ok _ => .isFalse (by simp)
  | .ok _, .error _ => .isFalse (by simp)

/-- Whether a block shape is compatible with a volume shape: all block
dimensions are positive and each evenly divides the corresponding volume
dimension. -/
def compatibleb (s bs : ℕ × ℕ × ℕ) : Bool :=
  decide (0 < bs.1) && decide (0 < bs.2.1) && decide (0 < bs.2.2) &&
  decide (s.1 % bs.1 = 0) && decide (s.2.1 % bs.2.1 = 0) && decide (s.2.2 % bs.2.2 = 0)

/-- Chunk a flat list into consecutive pieces of `n` elements each (the
last piece may be shorter); for `n = 0` the result is empty. -/
def chunkList (n : ℕ) (l : List ℚ) : List Block :=
  (List.range ((l.length + n - 1) / n)).map (fun i => (l.drop (i * n)).take n)

/-- Modelled from the spec: the partition collaborator
`to_blocks(array, block_shape) -> ordered block batch` (nobrainer.volume,
outside this module).  It produces a deterministically ordered batch of
blocks and fails when the block shape is not compatible with the volume
shape; block-extraction internals are out of scope, so blocks are modelled
as consecutive chunks of the flattened data, which keeps the collaborator
an exact inverse of `from_blocks` for compatible shapes. -/
def to_blocks (v : Volume) (block_shape : ℕ × ℕ × ℕ) : Except PyError (List Block) :=
  if compatibleb v.shape block_shape then .ok (chunkList (volSize block_shape) v.data)
  else .error (.valueError "blocks do not evenly divide the volume")

/-- Modelled from the spec: the reassembly collaborator
`from_blocks(block_batch, output_shape) -> array` (nobrainer.volume,
outside this module); fails when the blocks do not hold exactly the number
of voxels of the output shape. -/
def from_blocks (blocks : List Block) (output_shape : ℕ × ℕ × ℕ) : Except PyError Volume :=
  if blocks.flatten.length = volSize output_shape then .ok ⟨output_shape, blocks.flatten⟩
  else .error (.valueError "cannot reshape blocks into the output shape")

/-- Minimum of a list of rationals (0 for the empty list). -/
def qmin : List ℚ → ℚ
  | [] => 0
  | x :: xs => xs.foldl min x

/-- Maximum of a list of rationals (0 for the empty list). -/
def qmax : List ℚ → ℚ
  | [] => 0
  | x :: xs => xs.foldl max x

/-- Modelled from the spec: the default normalizer `normalize_zero_one`
(nobrainer.volume, outside this module) rescales voxel intensities to
[0, 1].  On a constant volume the denominator vanishes and rational
division by zero yields 0. -/
def normalize_zero_one (v : Volume) : Volume :=
  ⟨v.shape, v.data.map (fun x => (x - qmin v.data) / (qmax v.data - qmin v.data))⟩

/-- The inference interface applied per example over the batch dimension:
a trained model maps each block of the batch to a block of predicted
labels.  `batchPredictor f` is the batch-level callable obtained from the
per-block model `f` (the `{volume: ...} -> {class_ids: ...}` keyed mapping
of the serving signature is left implicit). -/
def batchPredictor (f : Block → Block) : List Block → List Block := fun blocks => blocks.map f

/-- Python slice assignment `l[j : j + repl.length] = repl` on a list. -/
def setSlice (l : List Block) (j : ℕ) (repl : List Block) : List Block :=
  l.take j ++ repl ++ l.drop (j + repl.length)

/-- Python `range(0, stop, step)` for a possibly negative `step`
(the module never reaches `range` with `step = 0`): for positive step the
indices `0, step, 2*step, ...` below `stop`; empty for negative step. -/
def pyRange (stop : ℕ) (step : ℤ) : List ℕ :=
  if 0 < step then List.range' 0 ((stop + step.toNat - 1) / step.toNat) step.toNat
  else []

/-- The prediction loop of `predict_from_array`: for each start index `j`,
write `P(features[j : j + b])` into `outputs[j : j + b]`. -/
def runChunks (P : List Block → List Block) (features : List Block) (b : ℕ) :
    List ℕ → List Block → List Block
  | [], outputs => outputs
  | j :: js, outputs =>
      runChunks P features b js (setSlice outputs j (P ((features.drop j).take b)))

/-- `n_batches = math.ceil(n_blocks / batch_size)` (predict.py, line 112)
for a nonzero `batch_size`: the exact ceiling of the quotient.  For a
positive `batch_size` this is the usual ceiling division; for a negative
one, `ceil(n / -m) = -(n / m)` with `n / m` the floor division on
naturals. -/
def nBatches (n : ℕ) (b : ℤ) : ℤ :=
  if 0 < b then ((n + b.toNat - 1) / b.toNat : ℕ) else -((n / (-b).toNat : ℕ) : ℤ)

/-- Modelled from the TF 1.x Keras source:
`progbar = tf.keras.utils.Progbar(target)` followed by `progbar.update(0)`
(predict.py, lines 113-114).  With the default `verbose=1`, the first
update is never throttled (`self._last_update` is 0 and
`0 < target` fails anyway for a non-positive target) and renders the bar
via `int(np.floor(np.log10(self.target))) + 1`: a negative target makes
`np.log10` return NaN and `int(NaN)` raises
`ValueError ("cannot convert float NaN to integer")`; a zero target makes
it return negative infinity and `int(-inf)` raises
`OverflowError ("cannot convert float infinity to integer")`; a positive
target only prints.  The in-loop `progbar.add(1)` (line 118) runs only
when the target is positive and is pure reporting. -/
def progbarUpdateZero (target : ℤ) : Except PyError Unit :=
  if target < 0 then .error (.valueError "cannot convert float NaN to integer")
  else if target = 0 then .error (.overflowError "cannot convert float infinity to integer")
  else .ok ()

/-- `predict_from_array` (predict.py, lines 85-120).  When the normalizer
is falsy the source never assigns `features`, so the call to `to_blocks`
raises `UnboundLocalError`; otherwise the normalized volume is split into
blocks and a zero block batch is allocated with `np.zeros_like`.
`math.ceil(n_blocks / batch_size)` raises `ZeroDivisionError` for
`batch_size = 0`; then `Progbar(n_batches).update(0)` runs (and raises for
a non-positive batch count, see `progbarUpdateZero`) before the loop
`for j in range(0, n_blocks, batch_size)` writes each chunk's predictor
output into the matching output slice and `from_blocks` reassembles the
outputs into the input's shape. -/
def predict_from_array (inputs : Volume) (predictor : List Block → List Block)
    (block_shape : ℕ × ℕ × ℕ) (normalizer : Option (Volume → Volume)) (batch_size : ℤ) :
    Except PyError Volume :=
  match normalizer with
  | none => .error (.unboundLocalError "features")
  | some norm =>
    match to_blocks (norm inputs) block_shape with
    | .error e => .error e
    | .ok blocks =>
      if batch_size = 0 then .error (.zeroDivisionError "division by zero")
      else
        match progbarUpdateZero (nBatches blocks.length batch_size) with
        | .error e => .error e
        | .ok _ =>
          from_blocks
            (runChunks predictor blocks batch_size.toNat (pyRange blocks.length batch_size)
              (blocks.map (fun blk => blk.map (fun _ => (0 : ℚ)))))
            inputs.shape

/-- Truncation of a rational toward zero, as numpy's cast to an integer
dtype performs. -/
def truncQ (x : ℚ) : ℤ :=
  if 0 ≤ x then ((x.num.toNat / x.den : ℕ) : ℤ) else -(((-x.num).toNat / x.den : ℕ) : ℤ)

/-- Modelled from the spec: `ndarray.astype(dtype)` casts the features
array to the requested numeric type (§4.3).  Integer dtypes truncate
toward zero; floating dtypes are modelled as exact on the rationals used
here. -/
def npAstype (dt : String) (x : ℚ) : ℚ :=
  if dt = "int32" ∨ dt = "int64" then ((truncQ x : ℤ) : ℚ) else x

/-- `inputs.astype(dtype)` applied when `dtype is not None`. -/
def applyDtype (dtype : Option String) (v : Volume) : Volume :=
  match dtype with
  | none => v
  | some dt => ⟨v.shape, v.data.map (npAstype dt)⟩

/-- The module-level default dtype `DT_X = "float32"`. -/
def DT_X : Option String := some "float32"

/-- Argument passed to `predict_from_img`: either an actual
`nib.spatialimages.SpatialImage`, or any other Python value (which the
`isinstance` guard rejects). -/
inductive ImgArg where
  | spatial (img : SpatialImage)
  | other

/-- `predict_from_img` (predict.py, lines 123-157).  Rejects non-image
input with `ValueError("image is not a nibabel image type")`; otherwise
extracts the data array, casts it when `dtype is not None`, releases the
image's internal cache (`img.uncache()`, a memory hint with no observable
effect here), delegates to `predict_from_array`, and rewraps the result
with the original affine, header and extra metadata. -/
def predict_from_img (img : ImgArg) (predictor : List Block → List Block)
    (block_shape : ℕ × ℕ × ℕ) (normalizer : Option (Volume → Volume)) (batch_size : ℤ)
    (dtype : Option String) : Except PyError SpatialImage :=
  match img with
  | .other => .error (.valueError "image is not a nibabel image type")
  | .spatial i =>
    match predict_from_array (applyDtype dtype i.dataobj) predictor block_shape
        normalizer batch_size with
    | .error e => .error e
    | .ok y => .ok ⟨y, i.affine, i.header, i.extra⟩

/-- `predict_from_filepath` (predict.py, lines 160-190).  The filesystem
and the nibabel loader (I/O collaborator, outside this module) are modelled
as a map from paths to loadable images: `none` means
`Path(filepath).is_file()` is false and `FileNotFoundError` is raised.
Note that the source calls `predict_from_img` without forwarding its
`dtype` argument, so the default `DT_X` is used. -/
def predict_from_filepath (fs : String → Option SpatialImage) (filepath : String)
    (predictor : List Block → List Block) (block_shape : ℕ × ℕ × ℕ)
    (normalizer : Option (Volume → Volume)) (batch_size : ℤ) (dtype : Option String) :
    Except PyError SpatialImage :=
  match fs filepath with
  | none => .error (.fileNotFoundError ("could not find file " ++ filepath))
  | some img => predict_from_img (.spatial img) predictor block_shape normalizer batch_size DT_X

/-- `predict_from_filepaths` (predict.py, lines 193-222): a generator that
yields one prediction per filepath.  The lazy sequence is modelled by the
list of results it would yield, aborting after the first error (an
exception inside a generator terminates the iteration). -/
def predict_from_filepaths (fs : String → Option SpatialImage) (filepaths : List String)
    (predictor : List Block → List Block) (block_shape : ℕ × ℕ × ℕ)
    (normalizer : Option (Volume → Volume)) (batch_size : ℤ) (dtype : Option String) :
    List (Except PyError SpatialImage) :=
  match filepaths with
  | [] => []
  | p :: rest =>
    match predict_from_filepath fs p predictor block_shape normalizer batch_size dtype with
    | .error e => [.error e]
    | .ok img =>
        .ok img :: predict_from_filepaths fs rest predictor block_shape normalizer batch_size dtype

/-- A filesystem path, as its list of components (pathlib `Path.parts`,
relative paths only, as the module never introduces absolute ones). -/
abbrev PyPath := List String

/-- Index of the last `.` in a character list (`str.rfind`). -/
def lastDotIdx (cs : List Char) : Option ℕ :=
  ((List.range cs.length).filter (fun i => cs.getD i ' ' = '.')).getLast?

/-- pathlib `Path.suffix`: the extension of the final component, taken
from its last dot; empty when there is no dot, when the dot is leading
(hidden files such as `.pb` have no suffix), or when the dot is trailing. -/
def pathSuffix (p : PyPath) : String :=
  let cs := (p.getLastD "").toList
  match lastDotIdx cs with
  | none => ""
  | some i => if 0 < i ∧ i + 1 < cs.length then String.mk (cs.drop i) else ""

/-- pathlib `str(Path(...))`: components joined by `/`; the empty path
renders as `.` (the parent of a single-component relative path). -/
def pathStr (p : PyPath) : String :=
  if p = [] then "." else String.intercalate "/" p

/-- Modelled from the spec: `tf.contrib.predictor.from_saved_model`
(external serving engine) loads a model bundle from a directory.  The
engine is a map `L` from directory strings to inference callables; `none`
means the load raises, which `_get_predictor` turns into the
`ValueError` below. -/
def loadSavedModel (L : String → Option (List Block → List Block)) (dir : PyPath) :
    Except PyError (List Block → List Block) :=
  match L (pathStr dir) with
  | some P => .ok P
  | none =>
      .error (.valueError "Failed to load predictor. Is `predictor` a path to a saved model?")

/-- The `predictor` argument of the public functions: either an
already-loaded `Predictor` handle or a path meant to name a SavedModel. -/
inductive PredictorArg where
  | handle (P : List Block → List Block)
  | path (p : PyPath)

/-- `_get_predictor` (predict.py, lines 225-245).  A `Predictor` instance
passes through unchanged; a path with pathlib suffix `.pb` is replaced by
its parent directory (the user may point at `saved_model.pb` while the
loader expects its directory) before the saved-model load is attempted. -/
def _get_predictor (L : String → Option (List Block → List Block)) (predictor : PredictorArg) :
    Except PyError (List Block → List Block) :=
  match predictor with
  | .handle P => .ok P
  | .path p => loadSavedModel L (if pathSuffix p = ".pb" then p.dropLast else p)

/-- The runtime type of `inputs` as inspected by the dispatcher's
`isinstance` chain: ndarray, nibabel spatial image, path string,
list/tuple of paths, or anything else. -/
inductive Inputs where
  | array (v : Volume)
  | image (img : SpatialImage)
  | filepath (p : String)
  | filepaths (ps : List String)
  | other

/-- The dispatcher's result: an array for array input, an image for image
or filepath input, and the (modelled) lazy sequence of images for a list
of filepaths. -/
inductive PredictOut where
  | vol (v : Volume)
  | img (i : SpatialImage)
  | imgs (l : List (Except PyError SpatialImage))
deriving DecidableEq

/-- `predict` (predict.py, lines 19-82), the dispatcher.  The predictor is
resolved once via `_get_predictor`, then `inputs` is routed by runtime
type.  The array branch of the source passes the literal
`normalize_zero_one` instead of the `normalizer` argument.  When no branch
matches, the local `out` is never assigned and `return out` raises
`UnboundLocalError`. -/
def predict (L : String → Option (List Block → List Block)) (fs : String → Option SpatialImage)
    (inputs : Inputs) (predictor : PredictorArg) (block_shape : ℕ × ℕ × ℕ)
    (normalizer : Option (Volume → Volume)) (batch_size : ℤ) (dtype : Option String) :
    Except PyError PredictOut :=
  match _get_predictor L predictor with
  | .error e => .error e
  | .ok P =>
    match inputs with
    | .array v =>
      match predict_from_array v P block_shape (some normalize_zero_one) batch_size with
      | .error e => .error e
      | .ok r => .ok (.vol r)
    | .image img =>
      match predict_from_img (.spatial img) P block_shape normalizer batch_size dtype with
      | .error e => .error e
      | .ok r => .ok (.img r)
    | .filepath s =>
      match predict_from_filepath fs s P block_shape normalizer batch_size dtype with
      | .error e => .error e
      | .ok r => .ok (.img r)
    | .filepaths ps =>
        .ok (.imgs (predict_from_filepaths fs ps P block_shape normalizer batch_size dtype))
    | .other => .error (.unboundLocalError "out")

/-! ### Concrete environments used to exercise the model -/

/-- Whether a `predict_from_img` outcome is a `TypeError`-class failure. -/
def isTypeErrorResult : Except PyError SpatialImage → Bool
  | .error (.typeError _) => true
  | _ => false

/-- A saved-model loader that can load only from the directory `m`. -/
def pbLoader : String → Option (List Block → List Block) :=
  fun s => if s = "m" then some (fun blocks => blocks) else none

/-- A one-voxel image with value 1/2 and non-trivial metadata. -/
def demoImg : SpatialImage := ⟨⟨(1, 1, 1), [(1 : ℚ)/2]⟩, [[1]], "hdr", "extra"⟩

/-- A filesystem holding `demoImg` at the single path `f.nii`. -/
def demoFS : String → Option SpatialImage :=
  fun s => if s = "f.nii" then some demoImg else none

/-! ### Helper lemmas -/

lemma le_ceil_mul (n b : ℕ) (hb : 0 < b) : n ≤ (n + b - 1) / b * b := by
  rcases Nat.eq_zero_or_pos n with rfl | hn
  · simp
  · have hd := Nat.div_add_mod (n + b - 1) b
    have hm : (n + b - 1) % b < b := Nat.mod_lt _ hb
    rw [Nat.mul_comm]
    obtain ⟨X, hX⟩ : ∃ X, b * ((n + b - 1) / b) = X := ⟨_, rfl⟩
    obtain ⟨r, hr⟩ : ∃ r, (n + b - 1) % b = r := ⟨_, rfl⟩
    rw [hX, hr] at hd
    rw [hr] at hm
    rw [hX]
    omega

lemma length_setSlice (l : List Block) (j : ℕ) (repl : List Block)
    (h : repl.length ≤ l.length - j) : (setSlice l j repl).length = l.length := by
  simp only [setSlice, List.length_append, List.length_take, List.length_drop]
  omega

lemma take_setSlice (l : List Block) (j b : ℕ) (repl : List Block)
    (h : repl.length = min b (l.length - j)) :
    (setSlice l j repl).take (j + b) = l.take j ++ repl := by
  rcases le_or_lt j l.length with hj | hj
  · have htl : (l.take j).length = j := by
      simp only [List.length_take]
      omega
    have hrb : repl.length ≤ b := by omega
    have h1 : (l.take j).take (j + b) = l.take j := by
      apply List.take_of_length_le
      rw [htl]
      omega
    have h2 : j + b - (l.take j).length = b := by
      rw [htl]
      omega
    rw [setSlice, List.append_assoc, List.take_append_eq_append_take, h1, h2,
      List.take_append_eq_append_take, List.take_of_length_le hrb]
    rcases le_or_lt b (l.length - j) with hble | hbgt
    · have hz : b - repl.length = 0 := by omega
      rw [hz]
      simp
    · have hde : l.drop (j + repl.length) = [] := List.drop_eq_nil_of_le (by omega)
      rw [hde]
      simp
  · have hrepl : repl = [] := by
      have hr0 : repl.length = 0 := by omega
      exact List.eq_nil_of_length_eq_zero hr0
    subst hrepl
    simp only [setSlice, List.length_nil, Nat.add_zero, List.append_nil,
      List.take_append_drop]
    rw [List.take_of_length_le (by omega), List.take_of_length_le (by omega)]

lemma runChunks_eq (f : Block → Block) (blocks : List Block) (b : ℕ) :
    ∀ (m j : ℕ) (outputs : List Block), outputs.length = blocks.length →
      blocks.length ≤ j + m * b →
      runChunks (batchPredictor f) blocks b (List.range' j m b) outputs
        = outputs.take j ++ (blocks.drop j).map f := by
  intro m
  induction m with
  | zero =>
    intro j outputs hlen hcov
    simp only [Nat.zero_mul, Nat.add_zero] at hcov
    rw [List.range'_zero]
    show outputs = _
    rw [List.drop_eq_nil_of_le (by omega), List.take_of_length_le (by omega)]
    simp
  | succ m ih =>
    intro j outputs hlen hcov
    rw [List.range'_succ]
    show runChunks (batchPredictor f) blocks b (List.range' (j + b) m b)
        (setSlice outputs j (batchPredictor f ((blocks.drop j).take b))) = _
    have hrepl : (batchPredictor f ((blocks.drop j).take b)).length
        = min b (outputs.length - j) := by
      simp [batchPredictor, hlen]
    have hlen' : (setSlice outputs j (batchPredictor f ((blocks.drop j).take b))).length
        = blocks.length := by
      rw [length_setSlice _ _ _ (by omega), hlen]
    have hcov' : blocks.length ≤ (j + b) + m * b := by
      have he : j + (m + 1) * b = (j + b) + m * b := by ring
      rw [← he]
      exact hcov
    rw [ih (j + b) _ hlen' hcov', take_setSlice _ _ _ _ hrepl, List.append_assoc]
    congr 1
    show batchPredictor f ((blocks.drop j).take b) ++ _ = _
    conv_rhs => rw [← List.take_append_drop b (blocks.drop j)]
    rw [List.map_append, List.drop_drop]
    rfl

lemma runChunks_pyRange (f : Block → Block) (blocks outputs : List Block) (b : ℤ)
    (hb : 0 < b) (hlen : outputs.length = blocks.length) :
    runChunks (batchPredictor f) blocks b.toNat (pyRange blocks.length b) outputs
      = blocks.map f := by
  have hbn : 0 < b.toNat := by omega
  rw [pyRange, if_pos hb]
  have h := runChunks_eq f blocks b.toNat ((blocks.length + b.toNat - 1) / b.toNat) 0
    outputs hlen (by simpa using le_ceil_mul blocks.length b.toNat hbn)
  rw [h]
  simp

lemma chunkList_nil (n : ℕ) : chunkList n [] = [] := by
  unfold chunkList
  have hz : ((List.length ([] : List ℚ)) + n - 1) / n = 0 := by
    rcases Nat.eq_zero_or_pos n with rfl | hn
    · simp
    · simp only [List.length_nil, Nat.zero_add]
      exact Nat.div_eq_of_lt (by omega)
  rw [hz]
  simp

lemma chunkList_cons (n : ℕ) (hn : 0 < n) (l : List ℚ) (hl : l ≠ []) :
    chunkList n l = l.take n :: chunkList n (l.drop n) := by
  have hlp : 0 < l.length := List.length_pos.mpr hl
  have hk : (l.length + n - 1) / n = ((l.drop n).length + n - 1) / n + 1 := by
    simp only [List.length_drop]
    rcases le_or_lt n l.length with hle | hlt
    · have he : l.length + n - 1 = (l.length - n + n - 1) + n := by omega
      rw [he, Nat.add_div_right _ hn]
    · have h1 : l.length - n = 0 := by omega
      rw [h1]
      have h2 : (0 + n - 1) / n = 0 := by
        simp only [Nat.zero_add]
        exact Nat.div_eq_of_lt (by omega)
      rw [h2]
      have h3 : l.length + n - 1 = (l.length - 1) + n := by omega
      rw [h3, Nat.add_div_right _ hn]
      have h4 : (l.length - 1) / n = 0 := Nat.div_eq_of_lt (by omega)
      rw [h4]
  unfold chunkList
  rw [hk, List.range_succ_eq_map]
  simp only [List.map_cons, List.map_map]
  congr 1
  · simp
  · apply List.map_congr_left
    intro i _
    simp only [Function.comp_apply]
    rw [List.drop_drop]
    congr 2
    rw [Nat.succ_eq_add_one]
    ring

theorem flatten_chunkList (n : ℕ) (hn : 0 < n) (l : List ℚ) :
    (chunkList n l).flatten = l := by
  rcases eq_or_ne l [] with rfl | hne
  · rw [chunkList_nil]
    rfl
  · rw [chunkList_cons n hn l hne, List.flatten_cons,
      flatten_chunkList n hn (l.drop n), List.take_append_drop]
termination_by l.length
decreasing_by
  simp only [List.length_drop]
  have := List.length_pos.mpr hne
  omega

lemma flatten_map_length (f : Block → Block) (hf : ∀ blk, (f blk).length = blk.length)
    (blocks : List Block) : ((blocks.map f).flatten).length = blocks.flatten.length := by
  induction blocks with
  | nil => rfl
  | cons blk rest ih =>
    rw [List.map_cons, List.flatten_cons, List.flatten_cons, List.length_append,
      List.length_append, hf, ih]

lemma flatten_map_zero (blocks : List Block) :
    (blocks.map (fun blk => blk.map (fun _ => (0 : ℚ)))).flatten
      = blocks.flatten.map (fun _ => (0 : ℚ)) := by
  induction blocks with
  | nil => rfl
  | cons blk rest ih =>
    rw [List.map_cons, List.flatten_cons, List.flatten_cons, List.map_append, ih]

lemma normalize_zero_one_shape (v : Volume) : (normalize_zero_one v).shape = v.shape := rfl

lemma normalize_zero_one_length (v : Volume) :
    (normalize_zero_one v).data.length = v.data.length := by
  simp [normalize_zero_one]

lemma compatibleb_volSize_pos (s bs : ℕ × ℕ × ℕ) (h : compatibleb s bs = true) :
    0 < volSize bs := by
  simp only [compatibleb, Bool.and_eq_true, decide_eq_true_eq] at h
  exact Nat.mul_pos (Nat.mul_pos h.1.1.1.1.1 h.1.1.1.1.2) h.1.1.1.2

lemma nBatches_pos (n : ℕ) (b : ℤ) (hb : 0 < b) (hn : 0 < n) : 0 < nBatches n b := by
  unfold nBatches
  rw [if_pos hb]
  have hbt : 0 < b.toNat := by omega
  have h1 : 1 ≤ (n + b.toNat - 1) / b.toNat := by
    rw [Nat.le_div_iff_mul_le hbt]
    omega
  omega

lemma nBatches_zero (b : ℤ) (hb : 0 < b) : nBatches 0 b = 0 := by
  unfold nBatches
  rw [if_pos hb]
  have hbt : 0 < b.toNat := by omega
  have h0 : (0 + b.toNat - 1) / b.toNat = 0 := Nat.div_eq_of_lt (by omega)
  rw [h0]
  rfl

lemma nBatches_nonpos (n : ℕ) (b : ℤ) (hb : b < 0) : nBatches n b ≤ 0 := by
  unfold nBatches
  rw [if_neg (by omega)]
  exact neg_nonpos.mpr (Int.natCast_nonneg _)

lemma progbar_pos (t : ℤ) (ht : 0 < t) : progbarUpdateZero t = .ok () := by
  unfold progbarUpdateZero
  rw [if_neg (by omega), if_neg (by omega)]

lemma progbar_nonpos (t : ℤ) (ht : t ≤ 0) :
    progbarUpdateZero t = .error (.valueError "cannot convert float NaN to integer")
    ∨ progbarUpdateZero t = .error (.overflowError "cannot convert float infinity to integer") := by
  unfold progbarUpdateZero
  rcases lt_or_eq_of_le ht with hlt | heq
  · left
    rw [if_pos hlt]
  · right
    rw [if_neg (by omega), if_pos (by omega)]

unseal Rat.add Rat.sub Rat.mul Rat.inv

/-! ### Claims -/

/-- C1: for every volume, predictor, block shape and normalizer,
`predict_from_array` returns the same `PredictionMap` for every positive
`batch_size` — chunking the block batch into contiguous chunks and writing
each chunk's predictor output into the corresponding output slice yields
the same reassembled result as processing all blocks in one batch.  The
predictor is the inference interface applied per example over the batch
dimension (`batchPredictor`). -/
theorem C1_batch_size_invariant (v : Volume) (f : Block → Block)
    (block_shape : ℕ × ℕ × ℕ) (normalizer : Option (Volume → Volume)) (b1 b2 : ℤ)
    (h1 : 0 < b1) (h2 : 0 < b2) :
    predict_from_array v (batchPredictor f) block_shape normalizer b1
      = predict_from_array v (batchPredictor f) block_shape normalizer b2 := by
  cases normalizer with
  | none => rfl
  | some norm =>
    cases hto : to_blocks (norm v) block_shape with
    | error e => simp only [predict_from_array, hto]
    | ok blocks =>
      have hz1 : ¬ b1 = 0 := by omega
      have hz2 : ¬ b2 = 0 := by omega
      simp only [predict_from_array, hto, if_neg hz1, if_neg hz2]
      rcases Nat.eq_zero_or_pos blocks.length with hn | hn
      · rw [hn, nBatches_zero b1 h1, nBatches_zero b2 h2]
        rfl
      · simp only [progbar_pos _ (nBatches_pos blocks.length b1 h1 hn),
          progbar_pos _ (nBatches_pos blocks.length b2 h2 hn)]
        rw [runChunks_pyRange f blocks _ b1 h1 (by rw [List.length_map]),
          runChunks_pyRange f blocks _ b2 h2 (by rw [List.length_map])]

theorem C1_witness :
    (0 : ℤ) < 1 ∧ (0 : ℤ) < 3 ∧
    predict_from_array ⟨(4, 1, 1), [1, 2, 3, 4]⟩
        (batchPredictor (fun blk => blk.map (fun x => x + 1))) (1, 1, 1)
        (some (fun v => v)) 1
      = predict_from_array ⟨(4, 1, 1), [1, 2, 3, 4]⟩
        (batchPredictor (fun blk => blk.map (fun x => x + 1))) (1, 1, 1)
        (some (fun v => v)) 3 :=
  ⟨by decide, by decide,
    C1_batch_size_invariant _ _ _ _ 1 3 (by decide) (by decide)⟩

/-- C2 (code bug in the source): called with a falsy normalizer,
`predict_from_array` raises `UnboundLocalError` at `to_blocks(features, ...)`
because `features` is assigned only inside `if normalizer:` — instead of
using the volume directly as the features, as the spec states. -/
theorem C2_normalizer_none_unbound_local :
    predict_from_array ⟨(1, 1, 1), [0]⟩ (batchPredictor (fun blk => blk)) (1, 1, 1) none 4
      = .error (.unboundLocalError "features") := rfl

/-- C3 (code bug in the source): the dispatcher's array branch passes the
literal `normalize_zero_one` instead of the supplied `normalizer`, so
`predict` on a raw array disagrees with `predict_from_array` under the same
(identity) normalizer: `predict` rescales `[0, 2]` to `[0, 1]` while the
direct call leaves `[0, 2]` unchanged. -/
theorem C3_dispatcher_drops_normalizer :
    predict (fun _ => none) (fun _ => none) (.array ⟨(2, 1, 1), [0, 2]⟩)
        (.handle (batchPredictor (fun blk => blk))) (1, 1, 1) (some (fun v => v)) 4 DT_X
      = .ok (.vol ⟨(2, 1, 1), [0, 1]⟩) ∧
    predict_from_array ⟨(2, 1, 1), [0, 2]⟩ (batchPredictor (fun blk => blk)) (1, 1, 1)
        (some (fun v => v)) 4
      = .ok ⟨(2, 1, 1), [0, 2]⟩ :=
  ⟨by decide, by decide⟩

/-- C4 counterexample: a zero-voxel volume whose shape is compatible with
the block shape (and whose data is consistent with its shape) satisfies
the original claim's assumptions, yet `predict_from_array` does not return
a `PredictionMap` of the input's shape: the block batch is empty, the
progress bar is constructed with target 0, and `int(np.log10(0))` raises
`OverflowError` before the loop. -/
theorem C4_counterexample :
    compatibleb (0, 1, 1) (1, 1, 1) = true ∧
    predict_from_array ⟨(0, 1, 1), ([] : List ℚ)⟩ (batchPredictor (fun blk => blk)) (1, 1, 1)
        (some (fun v => v)) 4
      = .error (.overflowError "cannot convert float infinity to integer") :=
  ⟨by decide, by decide⟩

/-- C4 (amended): for every volume with at least one voxel whose data is
consistent with its shape and whose shape is compatible with the block
shape, with a shape-preserving normalizer and a shape-preserving per-block
predictor, `predict_from_array` succeeds and the returned `PredictionMap`
has exactly the shape of the input volume. -/
theorem C4_output_shape (v : Volume) (block_shape : ℕ × ℕ × ℕ) (norm : Volume → Volume)
    (f : Block → Block) (b : ℤ)
    (hpos : 0 < volSize v.shape)
    (hwf : v.data.length = volSize v.shape)
    (hcompat : compatibleb v.shape block_shape = true)
    (hnshape : (norm v).shape = v.shape)
    (hnlen : (norm v).data.length = v.data.length)
    (hf : ∀ blk, (f blk).length = blk.length)
    (hb : 0 < b) :
    ∃ r, predict_from_array v (batchPredictor f) block_shape (some norm) b = .ok r
      ∧ r.shape = v.shape := by
  have hto : to_blocks (norm v) block_shape
      = .ok (chunkList (volSize block_shape) (norm v).data) := by
    unfold to_blocks
    rw [hnshape, if_pos hcompat]
  have hz : ¬ b = 0 := by omega
  have hk : 0 < volSize block_shape := compatibleb_volSize_pos _ _ hcompat
  have hdata : 0 < (norm v).data.length := by
    rw [hnlen, hwf]
    exact hpos
  have hne : chunkList (volSize block_shape) (norm v).data ≠ [] := by
    intro hnil
    have hfl := flatten_chunkList (volSize block_shape) hk (norm v).data
    rw [hnil] at hfl
    rw [← hfl] at hdata
    simp at hdata
  have hlen0 : 0 < (chunkList (volSize block_shape) (norm v).data).length :=
    List.length_pos.mpr hne
  simp only [predict_from_array, hto, if_neg hz, progbar_pos _ (nBatches_pos _ b hb hlen0)]
  rw [runChunks_pyRange f _ _ b hb (by rw [List.length_map])]
  have hflat : ((chunkList (volSize block_shape) (norm v).data).map f).flatten.length
      = volSize v.shape := by
    rw [flatten_map_length f hf, flatten_chunkList _ (compatibleb_volSize_pos _ _ hcompat),
      hnlen, hwf]
  unfold from_blocks
  rw [if_pos hflat]
  exact ⟨_, rfl, rfl⟩

theorem C4_witness :
    ∃ r, predict_from_array ⟨(2, 1, 1), [3, 5]⟩ (batchPredictor (fun blk => blk)) (1, 1, 1)
        (some (fun v => v)) 4 = .ok r ∧ r.shape = (2, 1, 1) :=
  C4_output_shape ⟨(2, 1, 1), [3, 5]⟩ (1, 1, 1) (fun v => v) (fun blk => blk) 4
    (by decide) (by decide) (by decide) rfl rfl (fun blk => rfl) (by decide)

/-- C5 (code bug in the source): `predict_from_filepath` accepts a `dtype`
argument but calls `predict_from_img` without forwarding it, so the default
`DT_X = "float32"` is always used: with `dtype = "int32"` the direct
`predict_from_img` call truncates the voxel 1/2 to 0 while the filepath
route leaves it at 1/2. -/
theorem C5_dtype_not_forwarded :
    predict_from_filepath demoFS "f.nii" (batchPredictor (fun blk => blk)) (1, 1, 1)
        (some (fun v => v)) 1 (some "int32")
      = .ok ⟨⟨(1, 1, 1), [(1 : ℚ)/2]⟩, [[1]], "hdr", "extra"⟩ ∧
    predict_from_img (.spatial demoImg) (batchPredictor (fun blk => blk)) (1, 1, 1)
        (some (fun v => v)) 1 (some "int32")
      = .ok ⟨⟨(1, 1, 1), [0]⟩, [[1]], "hdr", "extra"⟩ :=
  ⟨by decide, by decide⟩

/-- C6 counterexample: on a non-image input `predict_from_img` fails with
`ValueError("image is not a nibabel image type")`, which is not a
`TypeError`-class error as the claim states, and whose message differs from
the claimed wording. -/
theorem C6_counterexample :
    predict_from_img .other (batchPredictor (fun blk => blk)) (1, 1, 1)
        (some (fun v => v)) 4 DT_X
      = .error (.valueError "image is not a nibabel image type") ∧
    isTypeErrorResult (predict_from_img .other (batchPredictor (fun blk => blk)) (1, 1, 1)
        (some (fun v => v)) 4 DT_X) = false :=
  ⟨rfl, rfl⟩

/-- C6 (amended): for every input to `predict_from_img` that is not a
recognized spatial image, and for every predictor, block shape, normalizer,
batch size and dtype, the call fails with
`ValueError("image is not a nibabel image type")` and no prediction work is
performed (the result does not depend on any of the other arguments). -/
theorem C6_rejects_non_image (P : List Block → List Block) (block_shape : ℕ × ℕ × ℕ)
    (normalizer : Option (Volume → Volume)) (batch_size : ℤ) (dtype : Option String) :
    predict_from_img .other P block_shape normalizer batch_size dtype
      = .error (.valueError "image is not a nibabel image type") := rfl

/-- C7: when `inputs` matches none of the four recognized variants, the
dispatcher takes no routing branch; the local `out` is never assigned, so
the implicit outcome is the undefined-variable failure (`UnboundLocalError`
on `out`) — no explicit error is raised by the dispatch logic itself, and
the result is independent of the filesystem, the normalizer and the
resolved predictor. -/
theorem C7_unmatched_inputs_undefined (L : String → Option (List Block → List Block))
    (fs : String → Option SpatialImage) (predictor : PredictorArg)
    (block_shape : ℕ × ℕ × ℕ) (normalizer : Option (Volume → Volume)) (batch_size : ℤ)
    (dtype : Option String) (P : List Block → List Block)
    (hres : _get_predictor L predictor = .ok P) :
    predict L fs .other predictor block_shape normalizer batch_size dtype
      = .error (.unboundLocalError "out") := by
  simp only [predict, hres]

theorem C7_witness :
    predict (fun _ => none) (fun _ => none) .other
        (.handle (batchPredictor (fun blk => blk))) (1, 1, 1) none 4 none
      = .error (.unboundLocalError "out") :=
  C7_unmatched_inputs_undefined _ _ _ _ _ _ _ _ rfl

/-- C8 counterexample: the path `m/.pb` has a final component that ends in
`.pb`, and a loader able to load from the parent directory `m`; yet
`_get_predictor` does not substitute the parent (pathlib gives the hidden
file `.pb` an empty suffix) and the load fails. -/
theorem C8_counterexample :
    (".pb" : String).toList.isSuffixOf (".pb" : String).toList = true ∧
    pbLoader (pathStr ((["m", ".pb"] : PyPath).dropLast)) = some (fun blocks => blocks) ∧
    _get_predictor pbLoader (.path ["m", ".pb"])
      = .error (.valueError
          "Failed to load predictor. Is `predictor` a path to a saved model?") :=
  ⟨by decide, rfl, rfl⟩

/-- C8 (amended): for every predictor argument that is a path whose final
component has pathlib suffix `.pb` (a `.pb` extension preceded by a
non-empty stem), `_get_predictor` substitutes the path's parent directory
and attempts the model-bundle load from that directory rather than from
the file path itself. -/
theorem C8_pb_suffix_loads_parent (L : String → Option (List Block → List Block))
    (p : PyPath) (h : pathSuffix p = ".pb") :
    _get_predictor L (.path p) = loadSavedModel L p.dropLast := by
  simp only [_get_predictor, if_pos h]

theorem C8_witness :
    pathSuffix ["m", "x.pb"] = ".pb" ∧
    _get_predictor pbLoader (.path ["m", "x.pb"]) = loadSavedModel pbLoader ["m"] :=
  ⟨by decide, C8_pb_suffix_loads_parent pbLoader ["m", "x.pb"] (by decide)⟩

/-- C9: whenever `predict_from_img` succeeds on a spatial image, the
returned image carries the original image's affine transform, header and
extra metadata unchanged (only `dataobj` differs). -/
theorem C9_metadata_preserved (img : SpatialImage) (P : List Block → List Block)
    (block_shape : ℕ × ℕ × ℕ) (normalizer : Option (Volume → Volume)) (batch_size : ℤ)
    (dtype : Option String) (out : SpatialImage)
    (h : predict_from_img (.spatial img) P block_shape normalizer batch_size dtype = .ok out) :
    out.affine = img.affine ∧ out.header = img.header ∧ out.extra = img.extra := by
  simp only [predict_from_img] at h
  cases hpa : predict_from_array (applyDtype dtype img.dataobj) P block_shape
      normalizer batch_size with
  | error e =>
    rw [hpa] at h
    exact Except.noConfusion h
  | ok y =>
    rw [hpa] at h
    injection h with h2
    rw [← h2]
    exact ⟨rfl, rfl, rfl⟩

theorem C9_witness :
    (⟨⟨(1, 1, 1), [(1 : ℚ)/2]⟩, [[1]], "hdr", "extra"⟩ : SpatialImage).affine = demoImg.affine ∧
    (⟨⟨(1, 1, 1), [(1 : ℚ)/2]⟩, [[1]], "hdr", "extra"⟩ : SpatialImage).header = demoImg.header ∧
    (⟨⟨(1, 1, 1), [(1 : ℚ)/2]⟩, [[1]], "hdr", "extra"⟩ : SpatialImage).extra = demoImg.extra :=
  C9_metadata_preserved demoImg (batchPredictor (fun blk => blk)) (1, 1, 1)
    (some (fun v => v)) 1 none _ (by decide)

/-- C10 counterexample: with one block and `batch_size = -1` the batch
count `math.ceil(1 / -1)` is -1, so `Progbar(-1).update(0)` raises
`ValueError ("cannot convert float NaN to integer")` before the chunk loop
ever runs — the call does not return an all-zero `PredictionMap` without
raising any error, refuting the claim. -/
theorem C10_counterexample :
    predict_from_array ⟨(1, 1, 1), [5]⟩ (batchPredictor (fun blk => blk)) (1, 1, 1)
        (some normalize_zero_one) (-1)
      = .error (.valueError "cannot convert float NaN to integer") := by decide

/-- C10 (amended): for every volume compatible with the block shape and
every negative `batch_size`, the chunk loop never runs and the predictor
is never invoked (the conclusion holds for every `P`, which does not occur
in it), but instead of returning an all-zero `PredictionMap` the call
raises at the progress-bar update before the loop:
`ValueError ("cannot convert float NaN to integer")` when the batch count
`math.ceil(n_blocks / batch_size)` is negative (`-batch_size ≤ n_blocks`),
and `OverflowError ("cannot convert float infinity to integer")` when that
ceiling is zero (`-batch_size > n_blocks`). -/
theorem C10_negative_batch_size_raises (v : Volume) (P : List Block → List Block)
    (block_shape : ℕ × ℕ × ℕ) (b : ℤ) (hb : b < 0)
    (hcompat : compatibleb v.shape block_shape = true) :
    predict_from_array v P block_shape (some normalize_zero_one) b
      = .error (.valueError "cannot convert float NaN to integer")
    ∨ predict_from_array v P block_shape (some normalize_zero_one) b
      = .error (.overflowError "cannot convert float infinity to integer") := by
  have hto : to_blocks (normalize_zero_one v) block_shape
      = .ok (chunkList (volSize block_shape) (normalize_zero_one v).data) := by
    unfold to_blocks
    rw [normalize_zero_one_shape, if_pos hcompat]
  have hz : ¬ b = 0 := by omega
  have hp := progbar_nonpos
    (nBatches (chunkList (volSize block_shape) (normalize_zero_one v).data).length b)
    (nBatches_nonpos _ b hb)
  rcases hp with hp | hp
  · left
    simp only [predict_from_array, hto, if_neg hz, hp]
  · right
    simp only [predict_from_array, hto, if_neg hz, hp]

theorem C10_witness :
    predict_from_array ⟨(1, 1, 1), [7]⟩ (batchPredictor (fun blk => blk)) (1, 1, 1)
        (some normalize_zero_one) (-2)
      = .error (.valueError "cannot convert float NaN to integer")
    ∨ predict_from_array ⟨(1, 1, 1), [7]⟩ (batchPredictor (fun blk => blk)) (1, 1, 1)
        (some normalize_zero_one) (-2)
      = .error (.overflowError "cannot convert float infinity to integer") :=
  C10_negative_batch_size_raises ⟨(1, 1, 1), [7]⟩ (batchPredictor (fun blk => blk))
    (1, 1, 1) (-2) (by decide) (by decide)

end Nobrainer
